import Mathlib

/-!
Shallow embedding of the maze game in src/game.py: the data model
(Game, Labyrinth, Hero), the turn loop of Game.play, hero movement
(Hero.hero_move), hazard generation (Labyrinth.generate_fire), the
action menu (Hero.check_near_hero), the death check
(Hero.check_hero_health) and the save or load serialization
(to_dict, from_dict, save_game, load_game).

Python values whose runtime type matters for equality tests are kept
apart: in Python a tuple never compares equal to a list, and the
deserializer produces lists (and, for the golem, a one element tuple)
where fresh games hold two element tuples.  The type PyCoord below
records exactly the coordinate shapes that flow through the program;
Python equality on those values coincides with structural equality on
PyCoord, since values of different runtime type are unequal in Python.
-/

namespace Labirinth

/-- Coordinate values as Python objects: a pair tuple (x, y), a pair
list [x, y], a one element tuple (c,) or a one element list [c].
Python equality on these shapes is structural equality on this type. -/
inductive PyCoord where
  | tup (x y : Int)
  | lst (x y : Int)
  | tup1 (c : PyCoord)
  | lst1 (c : PyCoord)
deriving DecidableEq, Repr

/-- Coordinate values as they appear in the JSON save file: json.dump
maps both tuples and lists to arrays, so a pair becomes [x, y] and a
one element wrapper becomes a singleton array. -/
inductive JCoord where
  | pair (x y : Int)
  | wrap (c : JCoord)
deriving DecidableEq, Repr

/-- Python list indexing with an int index: nonnegative indices read
from the front, negative indices wrap once from the back, anything
else raises IndexError (modelled as none). -/
def pyIdx {α : Type} (xs : List α) (i : Int) : Option α :=
  if 0 ≤ i then xs.get? i.toNat
  else if 0 ≤ i + xs.length then xs.get? (i + xs.length).toNat
  else none

/-- Python double indexing grid[i][j]. -/
def pyIdx2 (g : List (List Int)) (i j : Int) : Option Int :=
  (pyIdx g i).bind fun row => pyIdx row j

/-- Hero.__init__ fields (src/game.py lines 348-360).  position and
prev_position are always two element tuples of ints in the program, so
they are modelled directly as pairs. -/
structure Hero where
  name : String
  health : Int
  has_key : Bool
  position : Int × Int
  prev_position : Int × Int
  count_heal : Int
deriving DecidableEq, Repr

/-- Hero.__init__: health 5, no key, position (3, 0), prev (0, 0),
three self heals. -/
def Hero.make (name : String) : Hero :=
  { name := name, health := 5, has_key := false, position := (3, 0)
  , prev_position := (0, 0), count_heal := 3 }

/-- The fixed 4 by 8 terrain grid of Labyrinth.__init__. -/
def labyrinthGrid : List (List Int) :=
  [ [0, 0, 0, 0, 2, 1, 1, 1]
  , [0, 0, 2, 0, 0, 1, 0, 0]
  , [0, 1, 1, 1, 0, 1, 2, 0]
  , [1, 1, 0, 1, 1, 1, 0, 0] ]

/-- Labyrinth fields (src/game.py lines 248-271). -/
structure Labyrinth where
  size_x : Int
  size_y : Int
  grid : List (List Int)
  key : Bool
  key_coord : PyCoord
  hearts_coords : List PyCoord
  golem_coord : PyCoord
  fire_coords : List PyCoord
deriving DecidableEq, Repr

/-- Labyrinth.__init__: the fixed grid, key present at (1, 2), hearts
at (0, 4) and (2, 6), golem at (0, 7), no fire yet.  All coordinates
are Python tuples in a fresh labyrinth. -/
def Labyrinth.make : Labyrinth :=
  { size_x := 4, size_y := 8, grid := labyrinthGrid, key := true
  , key_coord := .tup 1 2, hearts_coords := [.tup 0 4, .tup 2 6]
  , golem_coord := .tup 0 7, fire_coords := [] }

/-- Game fields (src/game.py lines 23-35). -/
structure GameState where
  heroes : List Hero
  round : Int
  current_turn : Int
  player_login : String
  fire_cells : List PyCoord
  labyrinth : Labyrinth
deriving DecidableEq, Repr

/-- Game.__init__(login). -/
def GameState.make (login : String) : GameState :=
  { heroes := [], round := 0, current_turn := 0, player_login := login
  , fire_cells := [], labyrinth := Labyrinth.make }

/-- The four movement directions offered by Hero.hero_move. -/
inductive Direction where
  | up
  | down
  | left
  | right
deriving DecidableEq, Repr

/-- The one step candidate cell of a direction (src/game.py lines
528-535): up is row minus one, down row plus one, left column minus
one, right column plus one. -/
def candidate (h : Hero) (dir : Direction) : Int × Int :=
  match dir with
  | .up => (h.position.1 - 1, h.position.2)
  | .down => (h.position.1 + 1, h.position.2)
  | .left => (h.position.1, h.position.2 - 1)
  | .right => (h.position.1, h.position.2 + 1)

/-- Result of one execution of the movement block of Hero.hero_move
(src/game.py lines 542-575), after a direction has been chosen. -/
inductive MoveOutcome where
  | moved (h : Hero)
  | declined
  | victory (h : Hero)
  | crash
deriving DecidableEq, Repr

/-- Hero.hero_move, lines 542-575, for a chosen direction.  The guard
on line 542 bounds checks the CURRENT position (x, y), not the
candidate, and then indexes grid[new_x][new_y] with Python semantics:
an index of 4 or 8 raises IndexError (crash), an index of -1 wraps to
the last row or column.  If the candidate cell holds code 1 and equals
prev_position, a yes or no confirmation is read (confirmRetreat): yes
sets health to 0 and returns True without relocating, no returns False.
Otherwise prev_position is updated exactly when the candidate code is
1, the hero relocates, fire membership (Python ==, so a tuple position
never matches a list entry) costs one health, and reaching the golem
coordinate wins with the key (exit, modelled as victory) or zeroes
health without it.  The call to check_near_hero on line 557 only reads
state and logs, so it is omitted. -/
def hero_move (h : Hero) (lab : Labyrinth) (fire_cells : List PyCoord)
    (dir : Direction) (confirmRetreat : Bool) : MoveOutcome :=
  let x := h.position.1
  let y := h.position.2
  let cand := candidate h dir
  if 0 ≤ x ∧ x < 4 ∧ 0 ≤ y ∧ y < 8 then
    match pyIdx2 lab.grid cand.1 cand.2 with
    | none => .crash
    | some c =>
      if c ≠ 0 then
        if c = 1 ∧ cand = h.prev_position then
          if confirmRetreat then .moved { h with health := 0 } else .declined
        else
          let h1 := { h with
            prev_position := if c = 1 then h.position else h.prev_position
          , position := cand }
          let h2 := if PyCoord.tup h1.position.1 h1.position.2 ∈ fire_cells
            then { h1 with health := h1.health - 1 } else h1
          if PyCoord.tup h2.position.1 h2.position.2 = lab.golem_coord then
            if h2.has_key then .victory h2 else .moved { h2 with health := 0 }
          else .moved h2
      else .moved { h with health := h.health - 1 }
  else .moved { h with health := h.health - 1 }

/-- Labyrinth.is_valid_move (src/game.py lines 288-301): bounds check
0 <= x < size_x and 0 <= y < size_y, then the TRANSPOSED lookup
grid[y][x] (none models the IndexError this raises when y is 4..7),
testing membership of the cell code in [1, 2]. -/
def is_valid_move (lab : Labyrinth) (x y : Int) : Option Bool :=
  if 0 ≤ x ∧ x < lab.size_x ∧ 0 ≤ y ∧ y < lab.size_y then
    (pyIdx2 lab.grid y x).map fun c => c = 1 ∨ c = 2
  else some false

/-- The actions a hero can be offered (contextual entries of
check_near_hero plus the four static entries of hero_action). -/
inductive HAction where
  | attackHero (target : String)
  | pickKey
  | healStation
  | moveHero
  | healSelf
  | saveTheGame
  | quitGame
deriving DecidableEq, Repr

/-- Hero.check_near_hero (src/game.py lines 392-422): one attack entry
per other hero in the roster sharing the position, with a different
name and positive health; then EITHER the pick up key entry (key
present and hero on the key coordinate) OR, only otherwise (elif), the
heal at station entry when the hero stands on a heart coordinate.
Position comparisons are Python ==, so the tuple typed hero position
matches only tuple typed labyrinth coordinates. -/
def check_near_hero (h : Hero) (st : GameState) : List HAction :=
  (st.heroes.filterMap fun n =>
    if h.position = n.position ∧ h.name ≠ n.name ∧ n.health > 0
    then some (.attackHero n.name) else none)
  ++ (if st.labyrinth.key ∧
        PyCoord.tup h.position.1 h.position.2 = st.labyrinth.key_coord
      then [.pickKey]
      else if PyCoord.tup h.position.1 h.position.2 ∈ st.labyrinth.hearts_coords
      then [.healStation]
      else [])

/-- The action menu at the start of the decision loop of
Hero.hero_action (line 442-443): the contextual actions of
check_near_hero followed by the four static actions. -/
def offered_actions (h : Hero) (st : GameState) : List HAction :=
  check_near_hero h st ++ [.moveHero, .healSelf, .saveTheGame, .quitGame]

/-- Hero.check_hero_health (src/game.py lines 376-390): with health
at most 0 it returns False, and when the dead hero carries the key it
sets the labyrinth key flag and moves the key coordinate to the dead
hero position (a tuple); with positive health it returns True and
touches nothing. -/
def check_hero_health (h : Hero) (st : GameState) : Bool × GameState :=
  if h.health ≤ 0 then
    ( false
    , if h.has_key then
        { st with labyrinth :=
            { st.labyrinth with
              key := true,
              key_coord := PyCoord.tup h.position.1 h.position.2 } }
      else st )
  else (true, st)

/-- Labyrinth.generate_fire (src/game.py lines 273-286), driven by an
explicit supply of random draws; each draw is a pair from
randint(0, size_x - 1) times randint(0, size_y - 1) with the fixed
sizes 4 and 8.  The loop keeps a draw exactly when its cell code is 1
and it is not already collected, and stops at four cells; none models
a supply too short to finish (the Python loop would keep drawing). -/
def generate_fire (g : List (List Int)) (acc : List (Int × Int)) :
    List (Fin 4 × Fin 8) → Option (List (Int × Int))
  | [] => if acc.length = 4 then some acc else none
  | p :: rest =>
    if acc.length = 4 then some acc
    else
      if pyIdx2 g (p.1 : Int) (p.2 : Int) = some 1 ∧
          (((p.1 : Int), (p.2 : Int)) : Int × Int) ∉ acc then
        generate_fire g (acc ++ [((p.1 : Int), (p.2 : Int))]) rest
      else generate_fire g acc rest

/-- Game.start_new_round (src/game.py lines 211-228): round counter
plus one, fire regenerated from an empty list, and the game level
fire_cells aliased to the labyrinth fire_coords.  The generated cells
are Python tuples. -/
def start_new_round (st : GameState) (supply : List (Fin 4 × Fin 8)) :
    Option GameState :=
  match generate_fire st.labyrinth.grid [] supply with
  | none => none
  | some fs =>
    let fs' := fs.map fun p => PyCoord.tup p.1 p.2
    some { st with
           round := st.round + 1,
           labyrinth := { st.labyrinth with fire_coords := fs' },
           fire_cells := fs' }

/-- Result of one iteration of the while loop of Game.play (src/game.py
lines 152-176): the next state, the all heroes dead exit, an
IndexError from indexing the roster with current_turn, or a branch the
model does not follow (an action the menu would not offer, or a fire
supply too short). -/
inductive PlayResult where
  | next (st : GameState)
  | gameOver
  | indexCrash
  | stuck
deriving DecidableEq, Repr

/-- One iteration of the loop of Game.play in which the current hero,
when alive, chooses the attack action against the roster member at
index target (attack is a turn consuming action that leaves the
attacker alive).  Lines 152-176: empty roster exits the game; the
current hero is heroes[current_turn] (IndexError modelled as
indexCrash); a dead current hero is removed with current_turn left
unchanged, after check_hero_health possibly drops its key; an alive
hero attacks a co-located living other hero (health minus one via
List.set), then current_turn advances modulo the roster length and a
wrap to 0 starts a new round. -/
def play_iter (st : GameState) (target : Int) (supply : List (Fin 4 × Fin 8)) :
    PlayResult :=
  if st.heroes.isEmpty then .gameOver
  else
    match pyIdx st.heroes st.current_turn with
    | none => .indexCrash
    | some h =>
      if h.health ≤ 0 then
        let st' := (check_hero_health h st).2
        .next { st' with heroes := st'.heroes.eraseIdx st.current_turn.toNat }
      else
        match pyIdx st.heroes target with
        | none => .stuck
        | some tgt =>
          if h.position = tgt.position ∧ h.name ≠ tgt.name ∧ tgt.health > 0 then
            let heroes' := st.heroes.set target.toNat
              { tgt with health := tgt.health - 1 }
            let new_turn := (st.current_turn + 1) % (heroes'.length : Int)
            let st1 := { st with heroes := heroes', current_turn := new_turn }
            if new_turn = 0 then
              match start_new_round st1 supply with
              | none => .stuck
              | some st2 => .next st2
            else .next st1
          else .stuck

/-- Hero snapshot as written by Hero.to_dict (src/game.py lines
606-620) into the JSON save: position and prev_position become two
element arrays, modelled as the pairs they encode.  Hero.from_dict
restores every field, converting the arrays back to tuples, so hero
serialization round trips exactly. -/
structure HeroSnap where
  name : String
  health : Int
  position : Int × Int
  has_key : Bool
  prev_position : Int × Int
  count_heal : Int
deriving DecidableEq, Repr

/-- Labyrinth snapshot as written by Labyrinth.to_dict (src/game.py
lines 303-316): grid, fire coordinates, key coordinate, golem
coordinate and the key flag; sizes and hearts are not saved. -/
structure LabSnap where
  grid : List (List Int)
  fire_coords : List JCoord
  key_coord : JCoord
  golem_coord : JCoord
  key : Bool
deriving DecidableEq, Repr

/-- Game snapshot as written by Game.save_game (src/game.py lines
192-198) under the player login key. -/
structure GameSnap where
  heroes : List HeroSnap
  round : Int
  current_turn : Int
  labyrinth : LabSnap
  fire_cells : List JCoord
deriving DecidableEq, Repr

/-- json.dump on a PyCoord: tuples and lists both serialize to JSON
arrays. -/
def serCoord : PyCoord → JCoord
  | .tup x y => .pair x y
  | .lst x y => .pair x y
  | .tup1 c => .wrap (serCoord c)
  | .lst1 c => .wrap (serCoord c)

/-- json.load on a JCoord: every JSON array parses to a Python list. -/
def deserCoord : JCoord → PyCoord
  | .pair x y => .lst x y
  | .wrap c => .lst1 (deserCoord c)

/-- Hero.to_dict. -/
def Hero.to_dict (h : Hero) : HeroSnap :=
  { name := h.name, health := h.health, position := h.position
  , has_key := h.has_key, prev_position := h.prev_position
  , count_heal := h.count_heal }

/-- Hero.from_dict: name via the constructor, then every saved field,
with position and prev_position coerced back to tuples. -/
def Hero.from_dict (d : HeroSnap) : Hero :=
  { Hero.make d.name with
    health := d.health,
    position := d.position,
    prev_position := d.prev_position,
    has_key := d.has_key,
    count_heal := d.count_heal }

/-- Labyrinth.to_dict. -/
def Labyrinth.to_dict (lab : Labyrinth) : LabSnap :=
  { grid := lab.grid, fire_coords := lab.fire_coords.map serCoord
  , key_coord := serCoord lab.key_coord
  , golem_coord := serCoord lab.golem_coord, key := lab.key }

/-- Labyrinth.from_dict (src/game.py lines 318-335): a fresh labyrinth
whose grid, fire coordinates, key coordinate and key flag are taken
from the snapshot as the Python lists json.load produced; the golem
line ends in a trailing comma, so golem_coord becomes the ONE ELEMENT
TUPLE (data golem_coord,). -/
def Labyrinth.from_dict (d : LabSnap) : Labyrinth :=
  { Labyrinth.make with
    grid := d.grid,
    fire_coords := d.fire_coords.map deserCoord,
    key_coord := deserCoord d.key_coord,
    golem_coord := .tup1 (deserCoord d.golem_coord),
    key := d.key }

/-- Game.save_game (src/game.py lines 178-209), restricted to the
snapshot stored under the player login. -/
def save_game (st : GameState) : GameSnap :=
  { heroes := st.heroes.map Hero.to_dict, round := st.round
  , current_turn := st.current_turn
  , labyrinth := st.labyrinth.to_dict
  , fire_cells := st.fire_cells.map serCoord }

/-- Game.load_game (src/game.py lines 111-134) on the snapshot stored
under the player login: round, turn, fire cells (Python lists), heroes
and labyrinth. -/
def load_game (login : String) (d : GameSnap) : GameState :=
  { heroes := d.heroes.map Hero.from_dict, round := d.round
  , current_turn := d.current_turn, player_login := login
  , fire_cells := d.fire_cells.map deserCoord
  , labyrinth := Labyrinth.from_dict d.labyrinth }

/-- Folding play_iter over a list of attack targets, one loop
iteration per entry, stopping at any non-next result. -/
def play_chain (st : GameState) (targets : List Int)
    (supply : List (Fin 4 × Fin 8)) : PlayResult :=
  targets.foldl
    (fun r t => match r with | .next s => play_iter s t supply | r => r)
    (.next st)

/-- Four random draws that generate_fire accepts on the fixed grid:
all four cells carry code 1 and are pairwise distinct. -/
def supply4 : List (Fin 4 × Fin 8) := [(0, 5), (0, 6), (2, 1), (2, 2)]

/-- A fresh two hero game, as produced by Game.__init__ plus
add_heroes with names A and B. -/
def c1_start : GameState :=
  { GameState.make "p" with heroes := [Hero.make "A", Hero.make "B"] }

/-- Ten turns of mutual attacks: the hero at index 0 attacks index 1
and conversely, five rounds long.  The ninth attack brings hero B to
health 0; the tenth loop iteration is the start of turn death check
that removes B. -/
def c1_targets : List Int := [1, 0, 1, 0, 1, 0, 1, 0, 1, 0]

/-- Game.play on the two hero game: the entry call to start_new_round
(current_turn is 0), then the loop iterations of c1_targets. -/
def c1_run : PlayResult :=
  match start_new_round c1_start supply4 with
  | none => .stuck
  | some s => play_chain s c1_targets supply4

/-- The state reached after the dead hero B is removed: one hero left
but current_turn still 1. -/
def c1_badState : GameState :=
  { heroes := [{ name := "A", health := 1, has_key := false
               , position := (3, 0), prev_position := (0, 0)
               , count_heal := 3 }]
  , round := 5, current_turn := 1, player_login := "p"
  , fire_cells := [.tup 0 5, .tup 0 6, .tup 2 1, .tup 2 2]
  , labyrinth := { Labyrinth.make with
      fire_coords := [.tup 0 5, .tup 0 6, .tup 2 1, .tup 2 2] } }

/-- The snapshot save_game writes for a fresh one hero game. -/
def c2_snap : GameSnap :=
  save_game { GameState.make "p" with heroes := [Hero.make "A"] }

/-- A hero standing on the top row floor cell (0, 5). -/
def c3_upHero : Hero := { Hero.make "A" with position := (0, 5) }

/-- A hero on the plain floor cell (0, 5) whose recorded previous
position is the adjacent special floor cell (0, 4); reachable by
moving (0, 4) to (0, 5), which records prev_position (0, 4). -/
def c4_hero : Hero :=
  { Hero.make "C" with position := (0, 5), prev_position := (0, 4) }

/-- The labyrinth as Labyrinth.from_dict rebuilds it from the saved
dictionary of a fresh labyrinth: grid unchanged, key coordinate now a
list, golem coordinate now a one element tuple holding a list. -/
def labLoaded : Labyrinth := Labyrinth.from_dict Labyrinth.make.to_dict

/-- Fire cells as load_game leaves them: the JSON arrays parse to
Python lists, not tuples. -/
def fireLoaded : List PyCoord := [.lst 2 1, .lst 2 2, .lst 2 3, .lst 2 5]

/-- The same four fire cells as a fresh round generates them: tuples. -/
def fireFresh : List PyCoord := [.tup 2 1, .tup 2 2, .tup 2 3, .tup 2 5]

/-- A hero one step left of the golem cell (0, 7). -/
def c5_hero : Hero :=
  { Hero.make "B" with position := (0, 6), prev_position := (0, 5) }

/-- A hero one step left of the floor cell (2, 3). -/
def c6_hero : Hero :=
  { Hero.make "A" with position := (2, 2), prev_position := (2, 1) }

/-- A hero standing on the heart cell (0, 4). -/
def c8_hero : Hero := { Hero.make "A" with position := (0, 4) }

/-- A game in which the present key lies on the heart cell (0, 4),
for instance after a key carrying hero died there. -/
def c8_state : GameState :=
  { GameState.make "p" with
    heroes := [c8_hero],
    labyrinth := { Labyrinth.make with key_coord := .tup 0 4 } }

/-- A dead key carrying hero at (2, 5). -/
def deadHero : Hero :=
  { Hero.make "D" with health := 0, has_key := true, position := (2, 5) }

/-- The state start_new_round produces from a fresh empty game and the
draws of supply4. -/
def c9_after : GameState :=
  { GameState.make "w" with
    round := 1,
    fire_cells := [.tup 0 5, .tup 0 6, .tup 2 1, .tup 2 2],
    labyrinth := { Labyrinth.make with
      fire_coords := [.tup 0 5, .tup 0 6, .tup 2 1, .tup 2 2] } }

/-- C1: refuted on the code.  In the two hero game, after five rounds
of mutual attacks hero B dies at roster index 1; Game.play removes the
dead hero without clamping current_turn, so a reachable state has a
one element roster with turn index 1, violating the claimed invariant,
and the next loop iteration indexes heroes[1] and raises IndexError. -/
theorem play_turn_index_overflow_after_death :
    c1_run = .next c1_badState ∧
    c1_badState.heroes ≠ [] ∧
    c1_badState.heroes.length = 1 ∧
    c1_badState.current_turn = 1 ∧
    ¬ c1_badState.current_turn < (c1_badState.heroes.length : Int) ∧
    play_iter c1_badState 0 supply4 = .indexCrash := by
  decide

/-- C2: refuted on the code.  Loading the snapshot of a fresh one hero
game and saving again changes the golem coordinate from [0, 7] to
[[0, 7]], because Labyrinth.from_dict wraps it in a one element tuple
(trailing comma on line 333); every other field round trips. -/
theorem snapshot_roundtrip_golem_mismatch :
    save_game (load_game "p" c2_snap) ≠ c2_snap ∧
    (save_game (load_game "p" c2_snap)).labyrinth.golem_coord =
      .wrap (.pair 0 7) ∧
    c2_snap.labyrinth.golem_coord = .pair 0 7 ∧
    { save_game (load_game "p" c2_snap) with
      labyrinth := { (save_game (load_game "p" c2_snap)).labyrinth with
        golem_coord := c2_snap.labyrinth.golem_coord } } = c2_snap := by
  decide

/-- C3: refuted on the code.  hero_move bounds checks the CURRENT
position instead of the candidate: from the start cell (3, 0) the move
down reaches index 4 and raises IndexError; from (0, 5) the move up
wraps through Python index -1 to grid row 3, reads a floor code and
relocates the hero to the out of grid position (-1, 5).  Only the in
bounds wall case behaves as claimed (up from (3, 0) into the wall
(2, 0): stay in place, health 5 to 4). -/
theorem hero_move_bounds_check_wrong_cell :
    hero_move (Hero.make "A") Labyrinth.make [] .down true = .crash ∧
    hero_move c3_upHero Labyrinth.make [] .up true =
      .moved { c3_upHero with prev_position := (0, 5), position := (-1, 5) } ∧
    hero_move (Hero.make "A") Labyrinth.make [] .up true =
      .moved { Hero.make "A" with health := 4 } := by
  decide

/-- C4 counterexample: the hero on the plain floor cell (0, 5) whose
previous position is the special floor cell (0, 4) steps left onto it.
The claim premises hold (departure cell code 1, candidate equals
previous position), so the claim demands the retreat confirmation; the
code instead consults the CANDIDATE cell code (2), asks nothing,
relocates the hero at full health for either confirmation answer, and
leaves prev_position alone. -/
theorem retreat_departure_cell_counterexample :
    pyIdx2 labyrinthGrid 0 5 = some 1 ∧
    candidate c4_hero .left = c4_hero.prev_position ∧
    pyIdx2 labyrinthGrid 0 4 = some 2 ∧
    hero_move c4_hero Labyrinth.make [] .left true =
      .moved { c4_hero with position := (0, 4) } ∧
    hero_move c4_hero Labyrinth.make [] .left false =
      .moved { c4_hero with position := (0, 4) } ∧
    (MoveOutcome.moved { c4_hero with position := (0, 4) }) ≠
      .moved { c4_hero with health := 0 } := by
  decide

/-- C5: refuted on the code for restored sessions.  After
Labyrinth.from_dict the golem coordinate is the one element tuple
((0, 7),), which the tuple position (0, 7) never equals, so the golem
branch of hero_move is skipped: without the key the health stays 5
instead of dropping to 0, and with the key no victory happens.  In a
fresh session the same move kills the keyless hero and wins for the
key holder, as claimed. -/
theorem golem_check_skipped_after_load :
    labLoaded.golem_coord = .tup1 (.lst 0 7) ∧
    hero_move c5_hero labLoaded fireLoaded .right true =
      .moved { c5_hero with prev_position := (0, 6), position := (0, 7) } ∧
    hero_move { c5_hero with has_key := true } labLoaded fireLoaded
        .right true =
      .moved { c5_hero with
               has_key := true, prev_position := (0, 6),
               position := (0, 7) } ∧
    hero_move c5_hero Labyrinth.make [] .right true =
      .moved { c5_hero with
               prev_position := (0, 6), position := (0, 7),
               health := 0 } ∧
    hero_move { c5_hero with has_key := true } Labyrinth.make [] .right true =
      .victory { c5_hero with
                 has_key := true, prev_position := (0, 6),
                 position := (0, 7) } := by
  decide

/-- C6: refuted on the code for restored sessions.  load_game leaves
fire_cells as the Python lists json.load produced, while the hero
position is a tuple, so the membership test of hero_move never fires:
walking onto the hazard cell (2, 3) of a restored round leaves health
at 5.  With the tuple typed fire cells of a fresh round the same walk
costs exactly one health, as claimed. -/
theorem fire_damage_skipped_after_load :
    fireLoaded = (fireFresh.map serCoord).map deserCoord ∧
    hero_move c6_hero labLoaded fireLoaded .right true =
      .moved { c6_hero with prev_position := (2, 2), position := (2, 3) } ∧
    hero_move c6_hero Labyrinth.make fireFresh .right true =
      .moved { c6_hero with
               prev_position := (2, 2), position := (2, 3),
               health := 4 } := by
  decide

/-- C7: refuted on the code.  is_valid_move passes the bounds check
for x < 4 and y < 8 but then indexes grid[y][x]: for (0, 4), an in
bounds special floor cell per grid[0][4] = 2, it raises IndexError
(grid has no row 4); for (3, 0), an in bounds floor cell per
grid[3][0] = 1, it reads the transposed wall cell grid[0][3] = 0 and
returns False. -/
theorem is_valid_move_transposed_index :
    is_valid_move Labyrinth.make 0 4 = none ∧
    pyIdx2 labyrinthGrid 0 4 = some 2 ∧
    is_valid_move Labyrinth.make 3 0 = some false ∧
    pyIdx2 labyrinthGrid 3 0 = some 1 := by
  decide

/-- C8 counterexample: with the present key on the heart cell (0, 4)
and the hero standing there, the claim demands both the pick up key
and the heal at station options; the code reaches the heart test only
through an elif, so only the pick up key option is offered. -/
theorem key_on_heart_hides_heal_option :
    PyCoord.tup 0 4 ∈ c8_state.labyrinth.hearts_coords ∧
    c8_state.labyrinth.key = true ∧
    c8_state.labyrinth.key_coord = .tup 0 4 ∧
    c8_hero.position = (0, 4) ∧
    HAction.pickKey ∈ offered_actions c8_hero c8_state ∧
    HAction.healStation ∉ offered_actions c8_hero c8_state := by
  decide

/-- C4 (amended): for every passable move, the retreat rule keys on
the CANDIDATE cell code: when the candidate equals prev_position and
the candidate cell holds plain floor code 1, confirmation kills the
hero in place (health 0, no relocation) and decline aborts with no
turn consumed; in every other passable case the hero relocates to the
candidate and prev_position is updated to the pre move position
exactly when the candidate cell code is 1. -/
theorem hero_move_retreat_candidate_cell (h : Hero) (lab : Labyrinth)
    (fire : List PyCoord) (dir : Direction) (ans : Bool) (c : Int)
    (hx : 0 ≤ h.position.1 ∧ h.position.1 < 4 ∧
          0 ≤ h.position.2 ∧ h.position.2 < 8)
    (hc : pyIdx2 lab.grid (candidate h dir).1 (candidate h dir).2 = some c)
    (hc0 : c ≠ 0) :
    (c = 1 ∧ candidate h dir = h.prev_position →
      (ans = true → hero_move h lab fire dir ans =
        .moved { h with health := 0 }) ∧
      (ans = false → hero_move h lab fire dir ans = .declined)) ∧
    (¬(c = 1 ∧ candidate h dir = h.prev_position) →
      ∃ h2, (hero_move h lab fire dir ans = .moved h2 ∨
             hero_move h lab fire dir ans = .victory h2) ∧
        h2.position = candidate h dir ∧
        h2.prev_position =
          (if c = 1 then h.position else h.prev_position)) := by
  simp only [hero_move, if_pos hx, hc, if_pos hc0]
  constructor
  · intro hret
    rw [if_pos hret]
    cases ans <;> simp
  · intro hret
    rw [if_neg hret]
    by_cases hfire : PyCoord.tup (candidate h dir).1 (candidate h dir).2 ∈ fire
    · rw [if_pos hfire]
      by_cases hgol : PyCoord.tup (candidate h dir).1 (candidate h dir).2 =
        lab.golem_coord
      · rw [if_pos hgol]
        cases hkey : h.has_key <;> simp
      · rw [if_neg hgol]
        simp
    · rw [if_neg hfire]
      by_cases hgol : PyCoord.tup (candidate h dir).1 (candidate h dir).2 =
        lab.golem_coord
      · rw [if_pos hgol]
        cases hkey : h.has_key <;> simp
      · rw [if_neg hgol]
        simp

/-- Witness: the hero at (2, 2) with previous position (2, 1) moving
right onto the floor cell (2, 3) satisfies the hypotheses, and the non
retreat branch of the amended rule applies to it. -/
theorem hero_move_retreat_candidate_cell_witness :
    (0 ≤ c6_hero.position.1 ∧ c6_hero.position.1 < 4 ∧
      0 ≤ c6_hero.position.2 ∧ c6_hero.position.2 < 8) ∧
    pyIdx2 Labyrinth.make.grid (candidate c6_hero .right).1
      (candidate c6_hero .right).2 = some 1 ∧
    ((1 : Int) ≠ 0) ∧
    (¬((1 : Int) = 1 ∧ candidate c6_hero .right = c6_hero.prev_position) →
      ∃ h2, (hero_move c6_hero Labyrinth.make [] .right true = .moved h2 ∨
             hero_move c6_hero Labyrinth.make [] .right true = .victory h2) ∧
        h2.position = candidate c6_hero .right ∧
        h2.prev_position =
          (if (1 : Int) = 1 then c6_hero.position
           else c6_hero.prev_position)) :=
  ⟨by decide, by decide, by decide,
    (hero_move_retreat_candidate_cell c6_hero Labyrinth.make [] .right true 1
      (by decide) (by decide) (by decide)).2⟩

/-- Membership in the contextual action list of check_near_hero: an
attack entry for each co-located living other hero, the pick up key
entry exactly under the key conditions, and the heal entry exactly on
a heart when the key conditions fail (the elif). -/
theorem mem_check_near_hero (h : Hero) (st : GameState) (a : HAction) :
    a ∈ check_near_hero h st ↔
      (∃ n ∈ st.heroes, h.position = n.position ∧ h.name ≠ n.name ∧
        n.health > 0 ∧ a = .attackHero n.name) ∨
      (a = .pickKey ∧ st.labyrinth.key = true ∧
        PyCoord.tup h.position.1 h.position.2 = st.labyrinth.key_coord) ∨
      (a = .healStation ∧
        PyCoord.tup h.position.1 h.position.2 ∈ st.labyrinth.hearts_coords ∧
        ¬(st.labyrinth.key = true ∧
          PyCoord.tup h.position.1 h.position.2 = st.labyrinth.key_coord)) := by
  simp only [check_near_hero, List.mem_append, List.mem_filterMap,
    Option.ite_none_right_eq_some, Option.some.injEq]
  constructor
  · rintro (⟨n, hn, hc, rfl⟩ | hm)
    · exact Or.inl ⟨n, hn, hc.1, hc.2.1, hc.2.2, rfl⟩
    · split_ifs at hm with hk hh
      · simp only [List.mem_singleton] at hm
        subst hm
        exact Or.inr (Or.inl ⟨rfl, hk.1, hk.2⟩)
      · simp only [List.mem_singleton] at hm
        subst hm
        exact Or.inr (Or.inr ⟨rfl, hh, hk⟩)
      · simp at hm
  · rintro (⟨n, hn, h1, h2, h3, rfl⟩ | ⟨rfl, hk1, hk2⟩ | ⟨rfl, hh, hnk⟩)
    · exact Or.inl ⟨n, hn, ⟨h1, h2, h3⟩, rfl⟩
    · refine Or.inr ?_
      rw [if_pos ⟨hk1, hk2⟩]
      simp
    · refine Or.inr ?_
      rw [if_neg hnk, if_pos hh]
      simp

/-- C8 (amended): the offered action set is the union of per hero
attack options, the pick up key option under its conditions, the heal
at station option on a heart ONLY when the key conditions fail (the
heart test is an elif behind the key test), and the four static
actions. -/
theorem offered_actions_membership (h : Hero) (st : GameState) (a : HAction) :
    a ∈ offered_actions h st ↔
      (∃ n ∈ st.heroes, h.position = n.position ∧ h.name ≠ n.name ∧
        n.health > 0 ∧ a = .attackHero n.name) ∨
      (a = .pickKey ∧ st.labyrinth.key = true ∧
        PyCoord.tup h.position.1 h.position.2 = st.labyrinth.key_coord) ∨
      (a = .healStation ∧
        PyCoord.tup h.position.1 h.position.2 ∈ st.labyrinth.hearts_coords ∧
        ¬(st.labyrinth.key = true ∧
          PyCoord.tup h.position.1 h.position.2 = st.labyrinth.key_coord)) ∨
      a = .moveHero ∨ a = .healSelf ∨ a = .saveTheGame ∨ a = .quitGame := by
  simp only [offered_actions, List.mem_append, mem_check_near_hero,
    List.mem_cons, List.not_mem_nil, or_false, or_assoc]

/-- generate_fire soundness: a successful run returns exactly four
cells, keeps the accumulator free of duplicates, and every cell not
already in the accumulator carries grid code 1. -/
theorem generate_fire_sound (g : List (List Int)) :
    ∀ (supply : List (Fin 4 × Fin 8)) (acc res : List (Int × Int)),
      generate_fire g acc supply = some res →
      res.length = 4 ∧ (acc.Nodup → res.Nodup) ∧
      (∀ p ∈ res, p ∈ acc ∨ pyIdx2 g p.1 p.2 = some 1) := by
  intro supply
  induction supply with
  | nil =>
    intro acc res hres
    unfold generate_fire at hres
    split at hres
    · cases hres
      refine ⟨by assumption, fun hn => hn, fun p hp => Or.inl hp⟩
    · cases hres
  | cons q rest ih =>
    intro acc res hres
    unfold generate_fire at hres
    split at hres
    · cases hres
      refine ⟨by assumption, fun hn => hn, fun p hp => Or.inl hp⟩
    · rename_i hlen
      split at hres
      · rename_i hcond
        obtain ⟨hl, hnd, hmem⟩ :=
          ih (acc ++ [((q.1 : Int), (q.2 : Int))]) res hres
        refine ⟨hl, ?_, ?_⟩
        · intro hn
          apply hnd
          simp only [List.nodup_append, List.nodup_cons, List.not_mem_nil,
            not_false_iff, List.nodup_nil, and_true, true_and]
          exact ⟨hn, by simpa using fun hmem2 => hcond.2 hmem2⟩
        · intro p hp
          rcases hmem p hp with hin | hidx
          · rcases List.mem_append.mp hin with hin2 | hin2
            · exact Or.inl hin2
            · simp only [List.mem_singleton] at hin2
              subst hin2
              exact Or.inr hcond.1
          · exact Or.inr hidx
      · exact ih acc res hres

/-- C9: every successful start_new_round on the fixed grid adds one to
the round counter, and installs, both as the game fire_cells and as
the labyrinth fire_coords, a set of exactly four pairwise distinct
tuple coordinates, each of terrain code 1 on the fixed grid; the new
set depends only on the random draws, never on the previous hazard
set (full replacement). -/
theorem start_new_round_spec (st : GameState) (supply : List (Fin 4 × Fin 8))
    (st' : GameState) (hg : st.labyrinth.grid = labyrinthGrid)
    (hs : start_new_round st supply = some st') :
    st'.round = st.round + 1 ∧
    st'.fire_cells.length = 4 ∧
    st'.fire_cells.Nodup ∧
    (∀ q ∈ st'.fire_cells, ∃ x y, q = PyCoord.tup x y ∧
      pyIdx2 labyrinthGrid x y = some 1) ∧
    st'.labyrinth.fire_coords = st'.fire_cells ∧
    st'.heroes = st.heroes ∧
    st'.current_turn = st.current_turn ∧
    (∀ st2 st2', st2.labyrinth.grid = labyrinthGrid →
      start_new_round st2 supply = some st2' →
      st2'.fire_cells = st'.fire_cells) := by
  have hinj : Function.Injective (fun p : Int × Int => PyCoord.tup p.1 p.2) := by
    intro p q hpq
    simp only [PyCoord.tup.injEq] at hpq
    exact Prod.ext hpq.1 hpq.2
  unfold start_new_round at hs
  rw [hg] at hs
  cases hgen : generate_fire labyrinthGrid [] supply with
  | none => rw [hgen] at hs; cases hs
  | some fs =>
    rw [hgen] at hs
    cases hs
    obtain ⟨hl, hnd, hmem⟩ := generate_fire_sound labyrinthGrid supply [] fs hgen
    refine ⟨rfl, ?_, ?_, ?_, rfl, rfl, rfl, ?_⟩
    · simpa using hl
    · exact (hnd List.nodup_nil).map hinj
    · intro q hq
      simp only [List.mem_map] at hq
      obtain ⟨p, hp, rfl⟩ := hq
      rcases hmem p hp with hin | hidx
      · cases hin
      · exact ⟨p.1, p.2, rfl, hidx⟩
    · intro st2 st2' hg2 hs2
      unfold start_new_round at hs2
      rw [hg2, hgen] at hs2
      cases hs2
      rfl

/-- Witness: on the fresh empty game and the four draws of supply4,
start_new_round succeeds and yields round 1 with four distinct fire
cells, synchronized between the game and the labyrinth. -/
theorem start_new_round_spec_witness :
    (GameState.make "w").labyrinth.grid = labyrinthGrid ∧
    start_new_round (GameState.make "w") supply4 = some c9_after ∧
    c9_after.round = (GameState.make "w").round + 1 ∧
    c9_after.fire_cells.length = 4 ∧
    c9_after.fire_cells.Nodup ∧
    c9_after.labyrinth.fire_coords = c9_after.fire_cells := by
  have hs : start_new_round (GameState.make "w") supply4 = some c9_after := by
    decide
  have H := start_new_round_spec (GameState.make "w") supply4 c9_after rfl hs
  exact ⟨rfl, hs, H.1, H.2.1, H.2.2.1, H.2.2.2.2.1⟩

/-- C10: for a hero with health at most 0, check_hero_health returns
False; without the key the state is untouched (every game, labyrinth
and hero field unchanged), and with the key the only mutations are the
labyrinth key flag set to true and the key coordinate moved to the
dead hero position. -/
theorem check_hero_health_dead_frame (h : Hero) (st : GameState)
    (hd : h.health ≤ 0) :
    (check_hero_health h st).1 = false ∧
    (check_hero_health h st).2.heroes = st.heroes ∧
    (check_hero_health h st).2.round = st.round ∧
    (check_hero_health h st).2.current_turn = st.current_turn ∧
    (check_hero_health h st).2.fire_cells = st.fire_cells ∧
    (check_hero_health h st).2.player_login = st.player_login ∧
    (check_hero_health h st).2.labyrinth.grid = st.labyrinth.grid ∧
    (check_hero_health h st).2.labyrinth.hearts_coords =
      st.labyrinth.hearts_coords ∧
    (check_hero_health h st).2.labyrinth.golem_coord =
      st.labyrinth.golem_coord ∧
    (check_hero_health h st).2.labyrinth.fire_coords =
      st.labyrinth.fire_coords ∧
    (check_hero_health h st).2.labyrinth.size_x = st.labyrinth.size_x ∧
    (check_hero_health h st).2.labyrinth.size_y = st.labyrinth.size_y ∧
    (h.has_key = false → (check_hero_health h st).2 = st) ∧
    (h.has_key = true →
      (check_hero_health h st).2.labyrinth.key = true ∧
      (check_hero_health h st).2.labyrinth.key_coord =
        PyCoord.tup h.position.1 h.position.2) := by
  simp only [check_hero_health, if_pos hd]
  cases hk : h.has_key <;> simp

/-- Witness: a dead key carrying hero at (2, 5) satisfies the
hypothesis; the check reports False, leaves the roster alone and drops
the key at (2, 5). -/
theorem check_hero_health_dead_frame_witness :
    deadHero.health ≤ 0 ∧
    (check_hero_health deadHero (GameState.make "v")).1 = false ∧
    (check_hero_health deadHero (GameState.make "v")).2.heroes =
      (GameState.make "v").heroes ∧
    (deadHero.has_key = true →
      (check_hero_health deadHero (GameState.make "v")).2.labyrinth.key =
        true ∧
      (check_hero_health deadHero (GameState.make "v")).2.labyrinth.key_coord =
        PyCoord.tup deadHero.position.1 deadHero.position.2) := by
  have H := check_hero_health_dead_frame deadHero (GameState.make "v")
    (by decide)
  obtain ⟨h1, h2, h3, h4, h5, h6, h7, h8, h9, h10, h11, h12, h13, h14⟩ := H
  exact ⟨by decide, h1, h2, h14⟩

end Labirinth
